import Mathlib

/-!
Shallow embedding of the MOSINT demo web application (src/app.py).

The application is a Flask request handler over a PostgreSQL store.  We embed
the request-handling core: input validation (`validate_inputs`), the
multi-table fan-out lookup (`query_phone`, `query_by_uid`), the two summary
computations (`summarize_profile_activity`, `fetch_reaction_stats`) and the
orchestrating handler (`index`).  The database is a black box behind
psycopg2; we model it as an oracle (`Db`) that either answers a parameterized
query with column names and rows or raises a data-store error, and we record
the handler's interactions with it (connection/cursor acquisition, queries)
as an event trace.  Rows are opaque tuples, modelled as lists of cell
strings.
-/

namespace Mosint

/-- Rows returned by the store are opaque tuples; we model a tuple as a list
of cell values. -/
abbrev Row := List String

/-- Data-store errors (psycopg2.Error); the payload is the driver message. -/
abbrev DbErr := String

/-- The parameterized queries the handler can issue, one constructor per
SQL statement in src/app.py, each carrying its single parameter. -/
inductive Query where
  | phoneByNumber (phone : String)
  | profilesById (uid : String)
  | postsByUser (uid : String)
  | commentsByUser (uid : String)
  | reactionsByUser (uid : String)
  | fbphoneByUid (uid : String)
  | reactionStats (uid : String)
deriving DecidableEq, Repr

/-- The SQL text of each query, as written in src/app.py (the reaction-stats
SQL is abbreviated to one line). -/
def Query.sqlOf : Query → String
  | .phoneByNumber _ => "SELECT * FROM fbphone WHERE eightdigitnumbers = %s"
  | .profilesById _ => "SELECT * FROM profiles WHERE profile_id = %s"
  | .postsByUser _ => "SELECT * FROM posts WHERE post_user_id = %s"
  | .commentsByUser _ => "SELECT * FROM comments WHERE com_user_id = %s"
  | .reactionsByUser _ => "SELECT * FROM reactions WHERE reac_user_id = %s"
  | .fbphoneByUid _ => "SELECT * FROM fbphone WHERE uid = %s"
  | .reactionStats _ =>
      "SELECT reac_type, COUNT(*) AS cnt FROM reactions WHERE reac_user_id = %s GROUP BY reac_type ORDER BY cnt DESC"

/-- The table a query reads from. -/
def Query.tableOf : Query → String
  | .phoneByNumber _ => "fbphone"
  | .profilesById _ => "profiles"
  | .postsByUser _ => "posts"
  | .commentsByUser _ => "comments"
  | .reactionsByUser _ => "reactions"
  | .fbphoneByUid _ => "fbphone"
  | .reactionStats _ => "reactions"

/-- The string parameter bound into a query. -/
def Query.paramOf : Query → String
  | .phoneByNumber s => s
  | .profilesById s => s
  | .postsByUser s => s
  | .commentsByUser s => s
  | .reactionsByUser s => s
  | .fbphoneByUid s => s
  | .reactionStats s => s

/-- Data-store interaction events of one request, in chronological order.
connAttempt is a call of get_db_connection(); connAcquire is its successful
return.  The release events are the context-manager exits of the two with
blocks in the handler (psycopg2 ends the transaction / closes the cursor
there, and the request-scoped objects are disposed when the handler
returns). -/
inductive Event where
  | connAttempt
  | connAcquire
  | cursorAcquire
  | query (q : Query)
  | cursorRelease
  | connRelease
deriving DecidableEq, Repr

/-- The database oracle: whether connecting succeeds, and the outcome of each
query: either (ordered column names, rows) as produced by cursor.description
and cursor.fetchall, or a raised psycopg2 error.  runStats is the same
cursor interface specialized to the two-column (reac_type, cnt) result shape
of the reaction-stats query. -/
structure Db where
  connect : Bool
  run : Query → Except DbErr (List String × List Row)
  runStats : String → Except DbErr (List (String × Nat))

/-- Flash result of summarize_profile_activity: post, comment and reaction
counts. -/
structure ProfileSummary where
  post_count : Nat
  comment_count : Nat
  reaction_count : Nat
deriving DecidableEq, Repr

/-- One aggregated reaction-stats entry, the dict literal
rendered by fetch_reaction_stats. -/
structure ReactionStat where
  type : String
  count : Nat
deriving DecidableEq, Repr

/-- The result bundle the handler passes to render_template: per-table row
sets (results), per-table column names (colnames), echoed inputs, the
optional profile summary, the reaction-stats list and the flashed
(message, category) pairs of this request. -/
structure Bundle where
  results : List (String × List Row)
  colnames : List (String × List String)
  uid : String
  phone : String
  profile_summary : Option ProfileSummary
  reaction_stats : List ReactionStat
  messages : List (String × String)
deriving DecidableEq, Repr

/-- Initial values of the handler locals: empty dicts, empty strings, no
summary, no stats, nothing flashed. -/
def emptyBundle : Bundle :=
  { results := [], colnames := [], uid := "", phone := "",
    profile_summary := none, reaction_stats := [], messages := [] }

/-- HTTP methods the route accepts. -/
inductive Method where
  | GET
  | POST
deriving DecidableEq, Repr

/-- Characters stripped by Python str.strip() with no argument: whitespace.
We cover the ASCII whitespace characters; further Unicode space characters
exist but none is relevant to the properties below. -/
def isPySpace (c : Char) : Bool :=
  c = ' ' || c = '\t' || c = '\n' || c = '\r' || c = '\x0b' || c = '\x0c'

/-- Python str.strip(): drop leading and trailing whitespace. -/
def pyStrip (s : String) : String :=
  ⟨List.rdropWhile isPySpace (s.toList.dropWhile isPySpace)⟩

/-- Character-level model of Python str.isdigit: true for characters with
Unicode property Numeric_Type equal to Digit or Decimal.  This covers the
ASCII digits and the non-ASCII digit characters relevant here (superscript
and subscript digits, Arabic-Indic, extended Arabic-Indic, Devanagari and
fullwidth decimal digits); Python accepts further ranges of the same kind. -/
def pyIsDigitChar (c : Char) : Bool :=
  c.isDigit
  || c = '¹' || c = '²' || c = '³'
  || (0x2070 ≤ c.toNat && c.toNat ≤ 0x2079)
  || (0x2080 ≤ c.toNat && c.toNat ≤ 0x2089)
  || (0x660 ≤ c.toNat && c.toNat ≤ 0x669)
  || (0x6F0 ≤ c.toNat && c.toNat ≤ 0x6F9)
  || (0x966 ≤ c.toNat && c.toNat ≤ 0x96F)
  || (0xFF10 ≤ c.toNat && c.toNat ≤ 0xFF19)

/-- Python str.isdigit: at least one character and every character is a
digit character. -/
def pyIsDigit (s : String) : Bool :=
  !s.isEmpty && s.toList.all pyIsDigitChar

/-- Message flashed when both inputs are given. -/
def conflictMsg : String :=
  "Please search by UID or phone, not both at the same time."

/-- Message flashed when neither input is given. -/
def missingMsg : String :=
  "Enter a UID or an 8-digit phone number to search."

/-- Message flashed for a malformed phone number. -/
def malformedMsg : String :=
  "Phone number must be exactly 8 digits."

/-- Message flashed when a psycopg2 error is caught. -/
def dbErrorMsg : String :=
  "An error occurred while fetching data. Please try again later."

/-- Embedding of validate_inputs: Python string truthiness is non-emptiness,
str.isdigit is pyIsDigit. -/
def validate_inputs (uid phone : String) : Option String :=
  if uid ≠ "" ∧ phone ≠ "" then some conflictMsg
  else if uid = "" ∧ phone = "" then some missingMsg
  else if phone ≠ "" then
    if ¬pyIsDigit phone ∨ phone.length ≠ 8 then some malformedMsg
    else none
  else none

/-- The lookup_queries dict of query_by_uid, in its (insertion-ordered)
iteration order. -/
def lookup_queries (uid : String) : List (String × Query) :=
  [("profiles", .profilesById uid),
   ("posts", .postsByUser uid),
   ("comments", .commentsByUser uid),
   ("reactions", .reactionsByUser uid),
   ("fbphone", .fbphoneByUid uid)]

/-- Outcome of the fan-out loop in query_by_uid: the entries written into
the results and column_names dicts, the queries issued, and the error that
aborted the loop, if any.  The dicts keep the entries of the sub-queries
that succeeded before the failure, exactly as the in-place mutation in the
Python code does. -/
structure LookupOut where
  results : List (String × List Row)
  colnames : List (String × List String)
  events : List Event
  err : Option DbErr
deriving Repr

/-- The fan-out loop of query_by_uid: issue each query in order; on success
record column names and rows under the table key; the first raised error
aborts the loop, leaving earlier entries in place. -/
def runLookups (db : Db) : List (String × Query) → LookupOut
  | [] => ⟨[], [], [], none⟩
  | (key, q) :: rest =>
    match db.run q with
    | .error e => ⟨[], [], [.query q], some e⟩
    | .ok (cols, rows) =>
      let out := runLookups db rest
      ⟨(key, rows) :: out.results, (key, cols) :: out.colnames,
       .query q :: out.events, out.err⟩

/-- Embedding of query_by_uid: run the five-table fan-out. -/
def query_by_uid (db : Db) (uid : String) : LookupOut :=
  runLookups db (lookup_queries uid)

/-- Python dict.get(key, default) over an insertion-ordered association
list. -/
def dictGetD (d : List (String × α)) (k : String) (dflt : α) : α :=
  match d.find? (fun kv => kv.1 == k) with
  | some kv => kv.2
  | none => dflt

/-- Embedding of summarize_profile_activity: lengths of the posts, comments
and reactions entries of the results dict, an empty list standing in for a
missing key. -/
def summarize_profile_activity (results : List (String × List Row)) :
    ProfileSummary :=
  { post_count := (dictGetD results "posts" []).length,
    comment_count := (dictGetD results "comments" []).length,
    reaction_count := (dictGetD results "reactions" []).length }

/-- Embedding of the request handler index (the authenticated core; the
login_required redirect is the excluded session subsystem).  Returns the
bundle passed to render_template together with the data-store event trace
of the request. -/
def index (db : Db) (method : Method) (form_uid form_phone : String) :
    Bundle × List Event :=
  match method with
  | .GET => (emptyBundle, [])
  | .POST =>
    let uid := pyStrip form_uid
    let phone := pyStrip form_phone
    match validate_inputs uid phone with
    | some err =>
      ({ emptyBundle with
         uid := uid, phone := phone,
         messages := [(err, "warning")] }, [])
    | none =>
      if db.connect then
        let enter : List Event := [.connAttempt, .connAcquire, .cursorAcquire]
        let leave : List Event := [.cursorRelease, .connRelease]
        if phone ≠ "" then
          match db.run (.phoneByNumber phone) with
          | .ok (cols, rows) =>
            ({ emptyBundle with
               results := [("fbphone", rows)],
               colnames := [("fbphone", cols)],
               uid := uid, phone := phone },
             enter ++ [.query (.phoneByNumber phone)] ++ leave)
          | .error _ =>
            ({ emptyBundle with
               uid := uid, phone := phone,
               messages := [(dbErrorMsg, "danger")] },
             enter ++ [.query (.phoneByNumber phone)] ++ leave)
        else if uid ≠ "" then
          let out := query_by_uid db uid
          match out.err with
          | some _ =>
            ({ emptyBundle with
               results := out.results, colnames := out.colnames,
               uid := uid, phone := phone,
               messages := [(dbErrorMsg, "danger")] },
             enter ++ out.events ++ leave)
          | none =>
            let summary := summarize_profile_activity out.results
            match db.runStats uid with
            | .error _ =>
              ({ emptyBundle with
                 results := out.results, colnames := out.colnames,
                 uid := uid, phone := phone,
                 profile_summary := some summary,
                 messages := [(dbErrorMsg, "danger")] },
               enter ++ out.events ++ [.query (.reactionStats uid)] ++ leave)
            | .ok statRows =>
              ({ emptyBundle with
                 results := out.results, colnames := out.colnames,
                 uid := uid, phone := phone,
                 profile_summary := some summary,
                 reaction_stats := statRows.map (fun tc => ⟨tc.1, tc.2⟩) },
               enter ++ out.events ++ [.query (.reactionStats uid)] ++ leave)
        else
          ({ emptyBundle with uid := uid, phone := phone }, enter ++ leave)
      else
        ({ emptyBundle with
           uid := uid, phone := phone,
           messages := [(dbErrorMsg, "danger")] }, [.connAttempt])

/-- Rows of the reactions table, restricted to the two columns the
reaction-stats SQL reads: the author uid and the reaction type. -/
structure ReactionRow where
  reac_user_id : String
  reac_type : String
deriving DecidableEq, Repr

/-- Comparison used by ORDER BY cnt DESC: a sorts no later than b when its
count is at least the count of b. -/
def statGE (a b : String × Nat) : Prop := b.2 ≤ a.2

instance : DecidableRel statGE := fun a b =>
  inferInstanceAs (Decidable (b.2 ≤ a.2))

instance : IsTotal (String × Nat) statGE :=
  ⟨fun a b => (le_total b.2 a.2).imp id id⟩

instance : IsTrans (String × Nat) statGE :=
  ⟨fun _ _ _ hab hbc => le_trans hbc hab⟩

/-- The WHERE clause of the reaction-stats SQL: rows of the reactions table
whose author is the given uid. -/
def reactionRowsFor (tbl : List ReactionRow) (uid : String) : List ReactionRow :=
  tbl.filter (fun r => r.reac_user_id == uid)

/-- Denotation of the reaction-stats SQL over a concrete reactions table:
filter by uid, GROUP BY reac_type with COUNT(*), then ORDER BY cnt DESC.
SQL leaves the group order and the order among equal counts unspecified; the
model fixes one such order (dedup grouping order, stable insertion sort). -/
def reactionStatsRows (tbl : List ReactionRow) (uid : String) :
    List (String × Nat) :=
  let filtered := reactionRowsFor tbl uid
  let types := (filtered.map (fun r => r.reac_type)).dedup
  List.insertionSort statGE
    (types.map (fun t => (t, filtered.countP (fun r => r.reac_type == t))))

/-- The grouped pairs before ordering: one pair per distinct type with its
occurrence count. -/
def groupedPairs (tbl : List ReactionRow) (uid : String) : List (String × Nat) :=
  (((reactionRowsFor tbl uid).map (fun r => r.reac_type)).dedup).map
    (fun t => (t, (reactionRowsFor tbl uid).countP (fun r => r.reac_type == t)))

/-- Embedding of fetch_reaction_stats over a concrete reactions table: the
rows of the aggregate query rendered as type and count records. -/
def fetch_reaction_stats (tbl : List ReactionRow) (uid : String) :
    List ReactionStat :=
  (reactionStatsRows tbl uid).map (fun tc => { type := tc.1, count := tc.2 })

/-- The results-dict entry a successful sub-query writes: the table key and
the fetched rows. -/
def rowsOfRun (db : Db) (kq : String × Query) : String × List Row :=
  (kq.1, match db.run kq.2 with | .ok cr => cr.2 | .error _ => [])

/-- The column-names entry a successful sub-query writes. -/
def colsOfRun (db : Db) (kq : String × Query) : String × List String :=
  (kq.1, match db.run kq.2 with | .ok cr => cr.1 | .error _ => [])

/-- The longest prefix of the fan-out whose queries all succeed: the
sub-queries whose entries are in the dicts when a later sub-query raises. -/
def okBeforeFailure (db : Db) (l : List (String × Query)) :
    List (String × Query) :=
  l.takeWhile (fun kq => match db.run kq.2 with | .ok _ => true | .error _ => false)

/-- Spec-side definition (refinement target for the Activity Summarizer),
following the spec words: the cardinality of the row set stored under a
table key, 0 when the key is absent. -/
def spec_rowset_card (results : List (String × List Row)) (key : String) : Nat :=
  match results.find? (fun kv => kv.1 == key) with
  | some kv => kv.2.length
  | none => 0

/-- The queries issued during a request, extracted from its event trace in
order. -/
def queriesOf (evs : List Event) : List Query :=
  evs.filterMap (fun e => match e with | .query q => some q | _ => none)

/-- The reactions-table rows of the spec example: like, love, like, like,
all by the same author. -/
def exampleReactions : List ReactionRow :=
  [⟨"u1", "like"⟩, ⟨"u1", "love"⟩, ⟨"u1", "like"⟩, ⟨"u1", "like"⟩]

/-- A store whose profiles sub-query succeeds with one row and whose posts
sub-query raises, exercising the partial-results behaviour of the
identifier-mode fan-out. -/
def dbPostsFail : Db :=
  { connect := true,
    run := fun q =>
      match q with
      | .profilesById u => .ok (["profile_id"], [[u]])
      | .postsByUser _ => .error "simulated failure"
      | _ => .ok ([], []),
    runStats := fun _ => .ok [] }

/-- A store on which every query succeeds with no rows. -/
def dbAllEmpty : Db :=
  { connect := true,
    run := fun _ => .ok ([], []),
    runStats := fun _ => .ok [] }

/-- A store that refuses every interaction: connecting raises. -/
def dbDown : Db :=
  { connect := false,
    run := fun _ => .error "down",
    runStats := fun _ => .error "down" }

/-- The validator returns either success or one of its three messages. -/
lemma validate_msgs (a b : String) :
    validate_inputs a b = none ∨ validate_inputs a b = some conflictMsg ∨
    validate_inputs a b = some missingMsg ∨
    validate_inputs a b = some malformedMsg := by
  unfold validate_inputs
  split_ifs <;> simp

/-- Every message the validator can return is non-empty. -/
lemma validate_some_ne_empty {a b e : String}
    (h : validate_inputs a b = some e) : e ≠ "" := by
  rcases validate_msgs a b with hm | hm | hm | hm <;> rw [hm] at h
  · exact Option.noConfusion h
  · rw [← Option.some.inj h]; decide
  · rw [← Option.some.inj h]; decide
  · rw [← Option.some.inj h]; decide

/-- The length seen through dict.get with an empty-list default agrees with
the spec-side cardinality. -/
lemma dictGetD_length (results : List (String × List Row)) (key : String) :
    (dictGetD results key []).length = spec_rowset_card results key := by
  unfold dictGetD spec_rowset_card
  cases results.find? (fun kv => kv.1 == key) with
  | none => rfl
  | some kv => rfl

/-- Stripping both ends of a character list is idempotent. -/
lemma strip_core_idem (l : List Char) :
    List.rdropWhile isPySpace
      ((List.rdropWhile isPySpace (l.dropWhile isPySpace)).dropWhile isPySpace) =
    List.rdropWhile isPySpace (l.dropWhile isPySpace) := by
  have h1 : (List.rdropWhile isPySpace (l.dropWhile isPySpace)).dropWhile isPySpace
      = List.rdropWhile isPySpace (l.dropWhile isPySpace) := by
    rw [List.dropWhile_eq_self_iff]
    intro hl
    have hpre := List.rdropWhile_prefix isPySpace (l.dropWhile isPySpace)
    have hlen : 0 < (l.dropWhile isPySpace).length :=
      lt_of_lt_of_le hl hpre.length_le
    have hnot := List.dropWhile_get_zero_not isPySpace l hlen
    rw [List.get_eq_getElem, hpre.getElem hl]
    rw [List.get_eq_getElem] at hnot
    exact hnot
  rw [h1, List.rdropWhile_idempotent]

/-- Python strip is idempotent. -/
lemma pyStrip_idem (s : String) : pyStrip (pyStrip s) = pyStrip s :=
  congrArg String.mk (strip_core_idem s.toList)

/-- Trace of a by-phone request against a reachable store: one connection,
one cursor, the single phone-equality query, then the two releases —
whether the query succeeds or raises. -/
lemma phone_mode_trace (db : Db) (u p : String) (hdb : db.connect = true)
    (hv : validate_inputs (pyStrip u) (pyStrip p) = none)
    (hp : pyStrip p ≠ "") :
    (index db .POST u p).2 =
      [.connAttempt, .connAcquire, .cursorAcquire,
       .query (.phoneByNumber (pyStrip p)), .cursorRelease, .connRelease] := by
  cases hrun : db.run (Query.phoneByNumber (pyStrip p)) with
  | ok v =>
    obtain ⟨cols, rows⟩ := v
    simp [index, hv, hdb, hp, hrun]
  | error e =>
    simp [index, hv, hdb, hp, hrun]

/-- The results dict written by the fan-out holds exactly the entries of the
sub-queries that succeeded before the first failure. -/
lemma runLookups_results (db : Db) (l : List (String × Query)) :
    (runLookups db l).results = (okBeforeFailure db l).map (rowsOfRun db) := by
  induction l with
  | nil => rfl
  | cons kq rest ih =>
    obtain ⟨key, q⟩ := kq
    cases hr : db.run q with
    | error e =>
      simp [runLookups, okBeforeFailure, List.takeWhile_cons, hr]
    | ok cr =>
      obtain ⟨cols, rows⟩ := cr
      simp [runLookups, okBeforeFailure, List.takeWhile_cons, hr,
        rowsOfRun, ih]

/-- The column-names dict written by the fan-out holds exactly the entries
of the sub-queries that succeeded before the first failure. -/
lemma runLookups_colnames (db : Db) (l : List (String × Query)) :
    (runLookups db l).colnames = (okBeforeFailure db l).map (colsOfRun db) := by
  induction l with
  | nil => rfl
  | cons kq rest ih =>
    obtain ⟨key, q⟩ := kq
    cases hr : db.run q with
    | error e =>
      simp [runLookups, okBeforeFailure, List.takeWhile_cons, hr]
    | ok cr =>
      obtain ⟨cols, rows⟩ := cr
      simp [runLookups, okBeforeFailure, List.takeWhile_cons, hr,
        colsOfRun, ih]

/-- Every event the fan-out emits is a query drawn from its query list. -/
lemma runLookups_events (db : Db) (l : List (String × Query)) :
    ∃ qs : List Query,
      (runLookups db l).events = qs.map Event.query ∧
      ∀ q ∈ qs, ∃ kq, kq ∈ l ∧ q = kq.2 := by
  induction l with
  | nil => exact ⟨[], rfl, by simp⟩
  | cons kq rest ih =>
    obtain ⟨key, q⟩ := kq
    obtain ⟨qs, hqs, hmem⟩ := ih
    cases hr : db.run q with
    | error e =>
      refine ⟨[q], ?_, ?_⟩
      · simp [runLookups, hr]
      · intro x hx
        rw [List.mem_singleton] at hx
        exact ⟨(key, q), List.mem_cons_self _ _, hx⟩
    | ok cr =>
      obtain ⟨cols, rows⟩ := cr
      refine ⟨q :: qs, ?_, ?_⟩
      · simp [runLookups, hr, hqs]
      · intro x hx
        rcases List.mem_cons.mp hx with hx0 | hx
        · exact ⟨(key, q), List.mem_cons_self _ _, hx0⟩
        · obtain ⟨kq, hkq, hx⟩ := hmem x hx
          exact ⟨kq, List.mem_cons_of_mem _ hkq, hx⟩

/-- Shape of the five fan-out queries: none is the phone-equality query,
each binds the uid as its parameter, and the one against the fbphone table
filters by the uid column. -/
lemma lookup_queries_mem (uid : String) {kq : String × Query}
    (h : kq ∈ lookup_queries uid) :
    (∀ s, kq.2 ≠ Query.phoneByNumber s) ∧
    (kq.2.tableOf = "fbphone" → kq.2 = Query.fbphoneByUid uid) ∧
    kq.2.paramOf = uid := by
  simp only [lookup_queries, List.mem_cons, List.not_mem_nil, or_false] at h
  rcases h with rfl | rfl | rfl | rfl | rfl <;>
    refine ⟨by simp, ?_, rfl⟩ <;> simp [Query.tableOf]

/-- Non-query events never occur in a mapped query list. -/
lemma count_map_query_eq_zero (qs : List Query) (e : Event)
    (he : ∀ q, e ≠ Event.query q) :
    (qs.map Event.query).count e = 0 := by
  rw [List.count_eq_zero]
  intro hmem
  obtain ⟨q, _, hq⟩ := List.mem_map.mp hmem
  exact he q hq.symm

/-- Extracting the queries of a mapped query list is the identity. -/
lemma queriesOf_map_query (qs : List Query) :
    queriesOf (qs.map Event.query) = qs := by
  induction qs with
  | nil => rfl
  | cons q rest ih =>
    simp only [List.map_cons, queriesOf, List.filterMap_cons] at ih ⊢
    rw [ih]

/-- Extracting the queries of a bracketed trace yields the query list. -/
lemma queriesOf_bracketed (qs : List Query) :
    queriesOf ([Event.connAttempt, Event.connAcquire, Event.cursorAcquire] ++
      qs.map Event.query ++ [Event.cursorRelease, Event.connRelease]) = qs := by
  have h := queriesOf_map_query qs
  simp only [queriesOf, List.filterMap_append] at h ⊢
  simp [h]

/-- Case analysis on the event trace of a POST request: an empty trace
(validation failed), a lone failed connection attempt, or a bracketed trace
whose queries are the single phone-equality query in by-phone mode, and
queries drawn from the five-table fan-out plus the reaction-stats query in
by-identifier mode. -/
lemma index_post_trace_cases (db : Db) (u p : String) :
    (index db .POST u p).2 = [] ∨
    (index db .POST u p).2 = [Event.connAttempt] ∨
    ∃ qs : List Query,
      (index db .POST u p).2 =
        [Event.connAttempt, Event.connAcquire, Event.cursorAcquire] ++
          qs.map Event.query ++ [Event.cursorRelease, Event.connRelease] ∧
      ((pyStrip p ≠ "" ∧ qs = [Query.phoneByNumber (pyStrip p)]) ∨
       (pyStrip p = "" ∧ ∀ q ∈ qs,
         (∃ kq, kq ∈ lookup_queries (pyStrip u) ∧ q = kq.2) ∨
         q = Query.reactionStats (pyStrip u))) := by
  cases hval : validate_inputs (pyStrip u) (pyStrip p) with
  | some err =>
    left
    simp [index, hval]
  | none =>
    cases hdb : db.connect with
    | false =>
      right; left
      simp [index, hval, hdb]
    | true =>
      right; right
      by_cases hp : pyStrip p = ""
      · rw [hp] at hval
        by_cases hu : pyStrip u = ""
        · rw [hu] at hval
          exact absurd hval (by decide)
        · obtain ⟨qs0, hev, hmem⟩ :=
            runLookups_events db (lookup_queries (pyStrip u))
          have hev' : (query_by_uid db (pyStrip u)).events = qs0.map Event.query := hev
          cases herr : (query_by_uid db (pyStrip u)).err with
          | some e =>
            refine ⟨qs0, ?_, Or.inr ⟨hp, fun q hq => Or.inl (hmem q hq)⟩⟩
            simp [index, hval, hdb, hp, hu, herr, hev']
          | none =>
            refine ⟨qs0 ++ [Query.reactionStats (pyStrip u)], ?_,
              Or.inr ⟨hp, fun q hq => ?_⟩⟩
            · cases hstat : db.runStats (pyStrip u) with
              | ok v =>
                simp [index, hval, hdb, hp, hu, herr, hstat, hev']
              | error e =>
                simp [index, hval, hdb, hp, hu, herr, hstat, hev']
            · rcases List.mem_append.mp hq with hq | hq
              · exact Or.inl (hmem q hq)
              · rw [List.mem_singleton] at hq
                exact Or.inr hq
      · refine ⟨[Query.phoneByNumber (pyStrip p)], ?_, Or.inl ⟨hp, rfl⟩⟩
        cases hrun : db.run (Query.phoneByNumber (pyStrip p)) with
        | ok v =>
          obtain ⟨cols, rows⟩ := v
          simp [index, hval, hdb, hp, hrun]
        | error e =>
          simp [index, hval, hdb, hp, hrun]

/-- Every POST branch echoes the stripped inputs in the bundle. -/
lemma index_post_echo (db : Db) (u p : String) :
    (index db .POST u p).1.uid = pyStrip u ∧
    (index db .POST u p).1.phone = pyStrip p := by
  cases hval : validate_inputs (pyStrip u) (pyStrip p) with
  | some err => simp [index, hval]
  | none =>
    cases hdb : db.connect with
    | false => simp [index, hval, hdb]
    | true =>
      by_cases hp : pyStrip p = ""
      · rw [hp] at hval
        by_cases hu : pyStrip u = ""
        · rw [hu] at hval
          exact absurd hval (by decide)
        · cases herr : (query_by_uid db (pyStrip u)).err with
          | some e => simp [index, hval, hdb, hp, hu, herr]
          | none =>
            cases hstat : db.runStats (pyStrip u) with
            | ok v => simp [index, hval, hdb, hp, hu, herr, hstat]
            | error e => simp [index, hval, hdb, hp, hu, herr, hstat]
      · cases hrun : db.run (Query.phoneByNumber (pyStrip p)) with
        | ok v =>
          obtain ⟨cols, rows⟩ := v
          simp [index, hval, hdb, hp, hrun]
        | error e => simp [index, hval, hdb, hp, hrun]

example :
    fetch_reaction_stats
      [⟨"u1", "like"⟩, ⟨"u1", "love"⟩, ⟨"u1", "like"⟩, ⟨"u1", "like"⟩] "u1" =
      [⟨"like", 3⟩, ⟨"love", 1⟩] := rfl

example : validate_inputs "" "1234567" = some malformedMsg := rfl
example : validate_inputs "" "12345678" = none := rfl
example : validate_inputs "" "12a45678" = some malformedMsg := rfl
example : validate_inputs "" "²²²²²²²²" = none := rfl
example : validate_inputs "a" "b" = some conflictMsg := rfl
example : validate_inputs "" "" = some missingMsg := rfl

example :
    (index dbPostsFail .POST "42" "").1.results =
      [("profiles", [["42"]])] := rfl
example :
    (index dbPostsFail .POST "42" "").1.messages =
      [(dbErrorMsg, "danger")] := rfl
example : (index dbAllEmpty .POST "" " 12345678 ").2 =
    [.connAttempt, .connAcquire, .cursorAcquire,
     .query (.phoneByNumber "12345678"), .cursorRelease, .connRelease] := rfl
example : (index dbAllEmpty .POST "" " 12345678 ").1.phone = "12345678" := rfl
example : (index dbDown .POST "7" "").2 = [.connAttempt] := rfl

/-- Claim C3: validation fails with ConflictingInputs exactly when both inputs are
non-empty (whatever the phone looks like), with MissingInput exactly when
both are empty, and neither of these two messages occurs in any other
case. -/
theorem c3_conflict_and_missing (uid phone : String) :
    (uid ≠ "" ∧ phone ≠ "" → validate_inputs uid phone = some conflictMsg) ∧
    (uid = "" ∧ phone = "" → validate_inputs uid phone = some missingMsg) ∧
    (¬(uid ≠ "" ∧ phone ≠ "") → ¬(uid = "" ∧ phone = "") →
      validate_inputs uid phone ≠ some conflictMsg ∧
      validate_inputs uid phone ≠ some missingMsg) := by
  refine ⟨fun h => ?_, fun h => ?_, fun h1 h2 => ?_⟩
  · unfold validate_inputs
    rw [if_pos h]
  · unfold validate_inputs
    rw [if_neg (by intro hc; exact hc.1 h.1), if_pos h]
  · unfold validate_inputs
    rw [if_neg h1, if_neg h2]
    split_ifs <;> exact ⟨by decide, by decide⟩

/-- Claim C3 witness: the conflicting, missing and malformed-free cases at
concrete inputs, through the theorem. -/
theorem c3_witness :
    validate_inputs "x" "y" = some conflictMsg ∧
    validate_inputs "" "" = some missingMsg ∧
    validate_inputs "" "12345678" ≠ some conflictMsg :=
  ⟨(c3_conflict_and_missing "x" "y").1 ⟨by decide, by decide⟩,
   (c3_conflict_and_missing "" "").2.1 ⟨rfl, rfl⟩,
   ((c3_conflict_and_missing "" "12345678").2.2
      (by intro hc; exact hc.1 rfl) (by intro hc; exact absurd hc.2 (by decide))).1⟩

/-- Claim C2 counterexample: the superscript-two string is eight characters long,
none of them a decimal digit 0-9, yet Python str.isdigit accepts it, so the
code lets it pass validation instead of failing with MalformedPhone. -/
theorem c2_counterexample :
    validate_inputs "" "²²²²²²²²" = none ∧
    ("²²²²²²²²" : String).length = 8 ∧
    ("²²²²²²²²" : String).toList.all Char.isDigit = false ∧
    ("²²²²²²²²" : String) ≠ "" := by decide

/-- Claim C2 (amended): with empty identifier and non-empty phone, validation
fails with MalformedPhone exactly when the phone is not eight characters
each accepted by Python str.isdigit (a set containing the decimal digits
0-9 and further Unicode digit characters such as the superscript two); the
listed examples behave as the claim says, and a valid phone selects by-phone
mode: the request issues exactly the phone-equality query. -/
theorem c2_malformed_phone (phone : String) (hp : phone ≠ "") :
    (validate_inputs "" phone = some malformedMsg ↔
      ¬(pyIsDigit phone = true ∧ phone.length = 8)) ∧
    (validate_inputs "" phone = none ↔
      (pyIsDigit phone = true ∧ phone.length = 8)) ∧
    validate_inputs "" "1234567" = some malformedMsg ∧
    validate_inputs "" "123456789" = some malformedMsg ∧
    validate_inputs "" "12a45678" = some malformedMsg ∧
    validate_inputs "" "12345678" = none ∧
    (∀ db : Db, db.connect = true →
      (index db .POST "" "12345678").2 =
        [.connAttempt, .connAcquire, .cursorAcquire,
         .query (.phoneByNumber "12345678"), .cursorRelease, .connRelease]) := by
  have hbase :
      validate_inputs "" phone =
        if ¬pyIsDigit phone ∨ phone.length ≠ 8 then some malformedMsg
        else none := by
    unfold validate_inputs
    rw [if_neg (by intro hc; exact hc.1 rfl),
        if_neg (by intro hc; exact hp hc.2), if_pos hp]
  refine ⟨?_, ?_, by decide, by decide, by decide, by decide, ?_⟩
  · rw [hbase]
    by_cases h : pyIsDigit phone = true ∧ phone.length = 8
    · rw [if_neg (by rintro (hc | hc); exacts [hc h.1, hc h.2])]
      simp [h]
    · rw [if_pos (not_and_or.mp h)]
      simp [h]
  · rw [hbase]
    by_cases h : pyIsDigit phone = true ∧ phone.length = 8
    · rw [if_neg (by rintro (hc | hc); exacts [hc h.1, hc h.2])]
      simp [h]
    · rw [if_pos (not_and_or.mp h)]
      simp [h]
  · intro db hdb
    exact phone_mode_trace db "" "12345678" hdb (by decide) (by decide)

/-- Claim C2 witness: the malformed and well-formed examples, through the
theorem. -/
theorem c2_witness :
    validate_inputs "" "1234567" = some malformedMsg ∧
    validate_inputs "" "12345678" = none :=
  ⟨(c2_malformed_phone "1234567" (by decide)).2.2.1,
   (c2_malformed_phone "12345678" (by decide)).2.2.2.2.2.1⟩

/-- Claim C6: summarize is total and pure by construction and returns exactly the
three counts, each the cardinality of the corresponding row set with 0 for
an absent key, as on the spec example with 3 posts, no comments entry rows
and 5 reactions. -/
theorem c6_summarize_counts (results : List (String × List Row)) :
    summarize_profile_activity results =
      { post_count := spec_rowset_card results "posts",
        comment_count := spec_rowset_card results "comments",
        reaction_count := spec_rowset_card results "reactions" } ∧
    (results.find? (fun kv => kv.1 == "comments") = none →
      (summarize_profile_activity results).comment_count = 0) ∧
    summarize_profile_activity
        [("posts", [[], [], []]), ("comments", []),
         ("reactions", [[], [], [], [], []])] =
      { post_count := 3, comment_count := 0, reaction_count := 5 } := by
  refine ⟨?_, fun h => ?_, by decide⟩
  · unfold summarize_profile_activity
    rw [dictGetD_length, dictGetD_length, dictGetD_length]
  · show (dictGetD results "comments" []).length = 0
    rw [dictGetD_length]
    unfold spec_rowset_card
    rw [h]

/-- Claim C6 witness: a dict with no comments key yields a zero comment count,
through the theorem. -/
theorem c6_witness :
    (summarize_profile_activity [("posts", [[]])]).comment_count = 0 :=
  (c6_summarize_counts [("posts", [[]])]).2.1 rfl

/-- Claim C7: when validation fails the handler touches no data store (empty
event trace, so no connection attempt and no query), and returns the empty
bundle with the echoed inputs and the non-empty validation message. -/
theorem c7_validation_failure_no_db (db : Db) (u p : String) (err : String)
    (hv : validate_inputs (pyStrip u) (pyStrip p) = some err) :
    index db .POST u p =
      ({ emptyBundle with
         uid := pyStrip u, phone := pyStrip p,
         messages := [(err, "warning")] }, []) ∧ err ≠ "" := by
  refine ⟨?_, validate_some_ne_empty hv⟩
  simp [index, hv]

/-- Claim C7 witness: a conflicting request against a live store still produces
the empty bundle and no trace, through the theorem. -/
theorem c7_witness :
    index dbAllEmpty .POST "a" "b" =
      ({ emptyBundle with
         uid := "a", phone := "b",
         messages := [(conflictMsg, "warning")] }, []) ∧ conflictMsg ≠ "" :=
  c7_validation_failure_no_db dbAllEmpty "a" "b" conflictMsg (by decide)

/-- Ordering the grouped pairs only permutes them. -/
lemma reactionStatsRows_perm (tbl : List ReactionRow) (uid : String) :
    (reactionStatsRows tbl uid).Perm (groupedPairs tbl uid) := by
  simp only [reactionStatsRows, groupedPairs]
  exact List.perm_insertionSort statGE _

/-- The rows of the aggregate query are sorted by descending count. -/
lemma reactionStatsRows_sorted (tbl : List ReactionRow) (uid : String) :
    (reactionStatsRows tbl uid).Sorted statGE := by
  simp only [reactionStatsRows]
  exact List.sorted_insertionSort statGE _

/-- Claim C5: the reaction aggregate has one entry per distinct reaction type of
the identifier's rows, each entry counts the rows of its type, the sequence
is sorted in descending order of count, and the spec example like, love,
like, like yields like:3 then love:1. -/
theorem c5_reaction_aggregation (tbl : List ReactionRow) (uid : String) :
    ((fetch_reaction_stats tbl uid).map (fun s => s.type)).Nodup ∧
    (∀ t : String,
      (∃ s ∈ fetch_reaction_stats tbl uid, s.type = t) ↔
        t ∈ (reactionRowsFor tbl uid).map (fun r => r.reac_type)) ∧
    (∀ s ∈ fetch_reaction_stats tbl uid,
      s.count =
        (reactionRowsFor tbl uid).countP (fun r => r.reac_type == s.type)) ∧
    ((fetch_reaction_stats tbl uid).map (fun s => s.count)).Sorted (· ≥ ·) ∧
    fetch_reaction_stats exampleReactions "u1" =
      [⟨"like", 3⟩, ⟨"love", 1⟩] := by
  have hty : (fetch_reaction_stats tbl uid).map (fun s => s.type) =
      (reactionStatsRows tbl uid).map Prod.fst := by
    rw [fetch_reaction_stats, List.map_map]
    rfl
  have hct : (fetch_reaction_stats tbl uid).map (fun s => s.count) =
      (reactionStatsRows tbl uid).map Prod.snd := by
    rw [fetch_reaction_stats, List.map_map]
    rfl
  have hgfst : (groupedPairs tbl uid).map Prod.fst =
      ((reactionRowsFor tbl uid).map (fun r => r.reac_type)).dedup := by
    rw [groupedPairs, List.map_map]
    exact List.map_id _
  have hpermfst := (reactionStatsRows_perm tbl uid).map Prod.fst
  rw [hgfst] at hpermfst
  refine ⟨?_, ?_, ?_, ?_, by decide⟩
  · rw [hty]
    exact hpermfst.nodup_iff.mpr
      (List.nodup_dedup ((reactionRowsFor tbl uid).map (fun r => r.reac_type)))
  · intro t
    have h1 : (∃ s ∈ fetch_reaction_stats tbl uid, s.type = t) ↔
        t ∈ (fetch_reaction_stats tbl uid).map (fun s => s.type) :=
      List.mem_map.symm
    rw [h1, hty, hpermfst.mem_iff, List.mem_dedup]
  · intro s hs
    rw [fetch_reaction_stats] at hs
    obtain ⟨tc, htc, rfl⟩ := List.mem_map.mp hs
    have htc2 : tc ∈ groupedPairs tbl uid :=
      (reactionStatsRows_perm tbl uid).mem_iff.mp htc
    rw [groupedPairs] at htc2
    obtain ⟨t, _, rfl⟩ := List.mem_map.mp htc2
    rfl
  · rw [hct]
    have hs := reactionStatsRows_sorted tbl uid
    exact List.Pairwise.map Prod.snd (fun a b hab => hab) hs

/-- Claim C5 witness: the spec example and one extracted count, through the
theorem. -/
theorem c5_witness :
    fetch_reaction_stats exampleReactions "u1" = [⟨"like", 3⟩, ⟨"love", 1⟩] ∧
    (ReactionStat.mk "like" 3).count =
      (reactionRowsFor exampleReactions "u1").countP
        (fun r => r.reac_type == (ReactionStat.mk "like" 3).type) :=
  ⟨(c5_reaction_aggregation exampleReactions "u1").2.2.2.2,
   (c5_reaction_aggregation exampleReactions "u1").2.2.1
     (ReactionStat.mk "like" 3) (by decide)⟩

/-- Claim C1 counterexample: with profiles succeeding (one row) and posts raising,
the identifier-mode bundle keeps the profiles rows next to the error
message, so its row sets are not all empty. -/
theorem c1_counterexample :
    (index dbPostsFail .POST "42" "").1.results.all (fun kv => kv.2.isEmpty) =
      false ∧
    (index dbPostsFail .POST "42" "").1.messages ≠ [] := by decide

/-- Claim C1 (amended): when a sub-query of the five-table lookup raises, the
bundle carries the non-empty generic error message, no profile summary and
no reaction stats, but its row sets are exactly those of the sub-queries
that succeeded before the failure (so rows fetched before the failure are
included; they are all absent only when the first sub-query fails). -/
theorem c1_failure_keeps_prior_rows (db : Db) (u : String)
    (hdb : db.connect = true)
    (hv : validate_inputs (pyStrip u) (pyStrip "") = none)
    (hf : (query_by_uid db (pyStrip u)).err.isSome = true) :
    (index db .POST u "").1 =
      { results :=
          (okBeforeFailure db (lookup_queries (pyStrip u))).map (rowsOfRun db),
        colnames :=
          (okBeforeFailure db (lookup_queries (pyStrip u))).map (colsOfRun db),
        uid := pyStrip u, phone := "",
        profile_summary := none, reaction_stats := [],
        messages := [(dbErrorMsg, "danger")] } ∧
    dbErrorMsg ≠ "" := by
  obtain ⟨e, he⟩ := Option.isSome_iff_exists.mp hf
  simp only [query_by_uid] at he
  have hu : pyStrip u ≠ "" := by
    intro h0
    rw [h0] at hv
    exact absurd hv (by decide)
  have hps : pyStrip "" = "" := rfl
  rw [hps] at hv
  refine ⟨?_, by decide⟩
  have hres := runLookups_results db (lookup_queries (pyStrip u))
  have hcols := runLookups_colnames db (lookup_queries (pyStrip u))
  simp [index, hv, hdb, hu, hps, he, query_by_uid, hres, hcols, emptyBundle]

/-- Claim C1 witness: the amended theorem applied to the failing-posts store at
identifier 42 yields exactly the profiles rows plus the error message. -/
theorem c1_witness :
    (index dbPostsFail .POST "42" "").1 =
      { results := [("profiles", [["42"]])],
        colnames := [("profiles", ["profile_id"])],
        uid := "42", phone := "",
        profile_summary := none, reaction_stats := [],
        messages := [(dbErrorMsg, "danger")] } ∧
    dbErrorMsg ≠ "" := by
  have h := c1_failure_keeps_prior_rows dbPostsFail "42" rfl (by decide) (by decide)
  exact ⟨h.1.trans (by decide), h.2⟩

/-- Claim C4: on a validated request, by-phone mode issues only the phone-equality
query against the fbphone table (never touching profiles, posts, comments or
reactions), while by-identifier mode never issues the phone-equality query
and its fbphone query filters by the uid column. -/
theorem c4_mode_query_separation (db : Db) (u p : String)
    (hv : validate_inputs (pyStrip u) (pyStrip p) = none) :
    (pyStrip p ≠ "" →
      ∀ q ∈ queriesOf (index db .POST u p).2,
        q = Query.phoneByNumber (pyStrip p) ∧ q.tableOf = "fbphone") ∧
    (pyStrip p = "" →
      (∀ q ∈ queriesOf (index db .POST u p).2,
        ∀ s, q ≠ Query.phoneByNumber s) ∧
      (∀ q ∈ queriesOf (index db .POST u p).2,
        q.tableOf = "fbphone" → q = Query.fbphoneByUid (pyStrip u))) := by
  rcases index_post_trace_cases db u p with h | h | ⟨qs, ht, hside⟩
  · rw [h]
    exact ⟨fun _ q hq => absurd hq (by simp [queriesOf]),
           fun _ => ⟨fun q hq => absurd hq (by simp [queriesOf]),
                     fun q hq => absurd hq (by simp [queriesOf])⟩⟩
  · rw [h]
    exact ⟨fun _ q hq => absurd hq (by simp [queriesOf]),
           fun _ => ⟨fun q hq => absurd hq (by simp [queriesOf]),
                     fun q hq => absurd hq (by simp [queriesOf])⟩⟩
  · rw [ht, queriesOf_bracketed]
    rcases hside with ⟨hpne, rfl⟩ | ⟨hpe, hall⟩
    · refine ⟨fun _ q hq => ?_, fun hp0 => absurd hp0 hpne⟩
      rw [List.mem_singleton] at hq
      subst hq
      exact ⟨rfl, rfl⟩
    · refine ⟨fun hp0 => absurd hpe hp0, fun _ => ⟨fun q hq => ?_, fun q hq => ?_⟩⟩
      · rcases hall q hq with ⟨kq, hkq, hq2⟩ | hq2
        · subst hq2
          exact (lookup_queries_mem (pyStrip u) hkq).1
        · subst hq2
          simp
      · rcases hall q hq with ⟨kq, hkq, hq2⟩ | hq2
        · subst hq2
          exact (lookup_queries_mem (pyStrip u) hkq).2.1
        · subst hq2
          intro htab
          exact absurd htab (by simp [Query.tableOf])

/-- Claim C4 witness: on a by-phone request the only query is the phone-equality
one, through the theorem. -/
theorem c4_witness :
    Query.phoneByNumber "12345678" = Query.phoneByNumber (pyStrip " 12345678 ") ∧
    (Query.phoneByNumber "12345678").tableOf = "fbphone" :=
  (c4_mode_query_separation dbAllEmpty "" " 12345678 " (by decide)).1
    (by decide) (Query.phoneByNumber "12345678") (by decide)

/-- Claim C8: on every request and every store behaviour, connection and cursor
acquisitions are each matched by exactly as many releases, at most one
connection is acquired, and any request that issues a query acquired and
released exactly one connection and one cursor. -/
theorem c8_resource_bracketing (db : Db) (m : Method) (u p : String) :
    (index db m u p).2.count Event.connAcquire =
      (index db m u p).2.count Event.connRelease ∧
    (index db m u p).2.count Event.cursorAcquire =
      (index db m u p).2.count Event.cursorRelease ∧
    (index db m u p).2.count Event.connAcquire ≤ 1 ∧
    ((∃ q, Event.query q ∈ (index db m u p).2) →
      (index db m u p).2.count Event.connAcquire = 1 ∧
      (index db m u p).2.count Event.cursorAcquire = 1 ∧
      (index db m u p).2.count Event.cursorRelease = 1 ∧
      (index db m u p).2.count Event.connRelease = 1) := by
  cases m with
  | GET =>
    have h : (index db Method.GET u p).2 = [] := rfl
    rw [h]
    refine ⟨rfl, rfl, by decide, fun hq => ?_⟩
    obtain ⟨q, hq⟩ := hq
    exact absurd hq (by simp)
  | POST =>
    rcases index_post_trace_cases db u p with h | h | ⟨qs, ht, hside⟩
    · rw [h]
      refine ⟨rfl, rfl, by decide, fun hq => ?_⟩
      obtain ⟨q, hq⟩ := hq
      exact absurd hq (by simp)
    · rw [h]
      refine ⟨rfl, rfl, by decide, fun hq => ?_⟩
      obtain ⟨q, hq⟩ := hq
      exact absurd hq (by simp)
    · rw [ht]
      have hz : ∀ e : Event, (∀ q, e ≠ Event.query q) →
          ([Event.connAttempt, Event.connAcquire, Event.cursorAcquire] ++
            qs.map Event.query ++
            [Event.cursorRelease, Event.connRelease]).count e =
          ([Event.connAttempt, Event.connAcquire, Event.cursorAcquire] :
            List Event).count e +
          ([Event.cursorRelease, Event.connRelease] : List Event).count e := by
        intro e hne
        rw [List.count_append, List.count_append,
          count_map_query_eq_zero qs e hne]
        omega
      rw [hz Event.connAcquire (by intro q h; cases h),
          hz Event.connRelease (by intro q h; cases h),
          hz Event.cursorAcquire (by intro q h; cases h),
          hz Event.cursorRelease (by intro q h; cases h)]
      refine ⟨by decide, by decide, by decide, fun _ => ?_⟩
      exact ⟨by decide, by decide, by decide, by decide⟩

/-- Claim C8 witness: a by-phone request against the live store acquires and
releases exactly one connection and cursor, through the theorem. -/
theorem c8_witness :
    (index dbAllEmpty .POST "" "12345678").2.count Event.connAcquire = 1 ∧
    (index dbAllEmpty .POST "" "12345678").2.count Event.cursorAcquire = 1 ∧
    (index dbAllEmpty .POST "" "12345678").2.count Event.cursorRelease = 1 ∧
    (index dbAllEmpty .POST "" "12345678").2.count Event.connRelease = 1 :=
  (c8_resource_bracketing dbAllEmpty .POST "" "12345678").2.2.2
    ⟨Query.phoneByNumber "12345678", by decide⟩

/-- Claim C10: the handler strips both form fields before anything else — the
request behaves exactly as if the stripped values had been submitted, the
bundle echoes the stripped values, every issued query binds one of the
stripped values as its parameter — and the phone " 12345678 " passes
validation as "12345678". -/
theorem c10_inputs_stripped (db : Db) (u p : String) :
    index db .POST u p = index db .POST (pyStrip u) (pyStrip p) ∧
    (index db .POST u p).1.uid = pyStrip u ∧
    (index db .POST u p).1.phone = pyStrip p ∧
    (∀ q ∈ queriesOf (index db .POST u p).2,
      q.paramOf = pyStrip u ∨ q.paramOf = pyStrip p) ∧
    pyStrip " 12345678 " = "12345678" ∧
    validate_inputs (pyStrip "") (pyStrip " 12345678 ") = none := by
  refine ⟨?_, (index_post_echo db u p).1, (index_post_echo db u p).2,
    ?_, by decide, by decide⟩
  · simp only [index, pyStrip_idem]
  · intro q hq
    rcases index_post_trace_cases db u p with h | h | ⟨qs, ht, hside⟩
    · rw [h] at hq
      exact absurd hq (by simp [queriesOf])
    · rw [h] at hq
      exact absurd hq (by simp [queriesOf])
    · rw [ht, queriesOf_bracketed] at hq
      rcases hside with ⟨hpne, rfl⟩ | ⟨hpe, hall⟩
      · rw [List.mem_singleton] at hq
        subst hq
        exact Or.inr rfl
      · rcases hall q hq with ⟨kq, hkq, hq2⟩ | hq2
        · subst hq2
          exact Or.inl (lookup_queries_mem (pyStrip u) hkq).2.2
        · subst hq2
          exact Or.inl rfl

/-- Claim C10 witness: the stripped phone is echoed and is the bound query
parameter, through the theorem. -/
theorem c10_witness :
    (index dbAllEmpty .POST "" " 12345678 ").1.phone = pyStrip " 12345678 " ∧
    ((Query.phoneByNumber "12345678").paramOf = pyStrip "" ∨
     (Query.phoneByNumber "12345678").paramOf = pyStrip " 12345678 ") :=
  ⟨(c10_inputs_stripped dbAllEmpty "" " 12345678 ").2.2.1,
   (c10_inputs_stripped dbAllEmpty "" " 12345678 ").2.2.2.1
     (Query.phoneByNumber "12345678") (by decide)⟩

/-- Claim C9: a GET request does nothing: no data-store event, and a bundle with
empty row sets, empty column lists, empty echoed inputs, no summary, no
reaction stats and no message. -/
theorem c9_get_request_empty (db : Db) (u p : String) :
    index db .GET u p =
      ({ results := [], colnames := [], uid := "", phone := "",
         profile_summary := none, reaction_stats := [],
         messages := [] }, []) := rfl

end Mosint
